import Mathlib

/-!
Verification development for the mcim-api read-through mirror core.

The definitions below are a shallow embedding of the Python source:
  - app/sync_queue/modrinth.py        (backfill queue operations)
  - app/routes/modrinth/v2/__init__.py  (batch and detail lookup endpoints)
  - app/routes/curseforge/v1/__init__.py
  - app/controller/file_cdn/__init__.py (CDN redirect decision engine)
  - app/utils/response_cache/__init__.py (response cache wrapper)
  - app/utils/response/__init__.py     (BaseResponse and ETag generation)

Redis SADD is modelled as set-union on a duplicate-free list; Mongo find
is modelled as a filter over a list of documents, find_one as List.find?.
Async functions are modelled as pure state-passing functions over the
queue and cache-backend state.
-/

namespace MCIM

/-! ## Redis set (queue backend) model

The sync queue lives in Redis sets, one named set per entity kind.
`sadd` is the Redis SADD command: set-union, keeping insertion order
for the list representation. -/

/-- Redis SADD of one element onto a set represented as a list:
adding an element already present is a no-op. -/
def saddOne {α : Type} [DecidableEq α] (s : List α) (x : α) : List α :=
  if x ∈ s then s else s ++ [x]

/-- Redis SADD of a batch of elements (set-union semantics). -/
def sadd {α : Type} [DecidableEq α] (s : List α) (xs : List α) : List α :=
  xs.foldl saddOne s

/-! ## Backfill queue operations (app/sync_queue/modrinth.py) -/

/-- Decides whether a character is in the regex class `[a-zA-Z0-9]`. -/
def isAsciiAlphanum (c : Char) : Bool :=
  (97 ≤ c.toNat && c.toNat ≤ 122) ||
  (65 ≤ c.toNat && c.toNat ≤ 90) ||
  (48 ≤ c.toNat && c.toNat ≤ 57)

/-- Python `re.match(r"[a-zA-Z0-9]{n}", s)` viewed as a Bool: `re.match`
anchors only at the start of the string, so it succeeds exactly when the
string has at least `n` characters and its first `n` characters are
ASCII alphanumeric.  There is no end anchor in the source pattern. -/
def reMatchAlnum (n : Nat) (s : String) : Bool :=
  decide (n ≤ s.length) && (s.toList.take n).all isAsciiAlphanum

/-- Embedding of `add_modrinth_project_ids_to_queue`: no validation, SADD onto the
set named modrinth_project_ids when the input batch is non-empty. -/
def add_modrinth_project_ids_to_queue (queue : List String)
    (project_ids : List String) : List String :=
  if project_ids.length ≠ 0 then sadd queue project_ids else queue

/-- Embedding of `add_modrinth_version_ids_to_queue`: drops ids whose first 8
characters do not match `[a-zA-Z0-9]{8}` and SADDs the rest. -/
def add_modrinth_version_ids_to_queue (queue : List String)
    (version_ids : List String) : List String :=
  let version_ids := version_ids.filter (reMatchAlnum 8)
  if version_ids.length > 0 then sadd queue version_ids else queue

/-- The two hash algorithms accepted by the Modrinth hash queue. -/
inductive Algorithm where
  | sha1
  | sha512
deriving DecidableEq

/-- Pattern length used for an algorithm: 40 for sha1, 128 for sha512. -/
def Algorithm.patternLength : Algorithm → Nat
  | .sha1 => 40
  | .sha512 => 128

/-- Embedding of `add_modrinth_hashes_to_queue`: keeps the hashes matched by
`re.match(r"[a-zA-Z0-9]{40}", h)` (sha1) or the 128 variant (sha512)
and SADDs them onto the per-algorithm set when non-empty.  The source
raises ValueError on any other algorithm string; the `Algorithm` type
restricts the embedding to the two valid values, which are the only
ones the routes pass. -/
def add_modrinth_hashes_to_queue (queue : List String)
    (hashes : List String) (algorithm : Algorithm) : List String :=
  let hashes := hashes.filter (reMatchAlnum algorithm.patternLength)
  if hashes.length > 0 then sadd queue hashes else queue

/-- The shape check as the specification words it, for comparison with
the source: a fixed-length string made of hexadecimal characters only
(length 40 for sha1, 128 for sha512). -/
def specFixedHexChar (c : Char) : Bool :=
  (48 ≤ c.toNat && c.toNat ≤ 57) ||
  (97 ≤ c.toNat && c.toNat ≤ 102) ||
  (65 ≤ c.toNat && c.toNat ≤ 70)

/-- Spec-worded shape predicate: exact length `n` and hex characters only. -/
def specFixedHex (n : Nat) (s : String) : Bool :=
  (s.length = n : Bool) && s.toList.all specFixedHexChar

/-- Modelled from the spec: `add_curseforge_modIds_to_queue`.  Modelled from the spec: the file
app/sync_queue/curseforge.py is not in the source tree (only its callers
are); per section 6 of the spec the queue backend operation is a set-add
(union) on the named queue, a no-op on an empty input. -/
def add_curseforge_modIds_to_queue (queue : List Nat)
    (modIds : List Nat) : List Nat :=
  if modIds.length ≠ 0 then sadd queue modIds else queue

/-- Modelled from the spec: `add_curseforge_fileIds_to_queue`.  Modelled from the spec: the file
app/sync_queue/curseforge.py is not in the source tree; set-add (union)
on the named queue of file ids, a no-op on an empty input. -/
def add_curseforge_fileIds_to_queue (queue : List Nat)
    (fileIds : List Nat) : List Nat :=
  if fileIds.length ≠ 0 then sadd queue fileIds else queue

/-! ## Modrinth route handlers (app/routes/modrinth/v2/__init__.py)

The Mongo document models (app/models/database/modrinth.py is not in
the source tree) are reduced to the fields these handlers read: the
Project documents carry an id and a slug, the Version documents an id.
`engine.find` is a filter over the collection in store order;
`engine.find_one` is `List.find?`. -/

/-- A Modrinth Project document, reduced to the fields the batch and
detail lookups compare against (a string id and a string slug). -/
structure Project where
  id : String
  slug : String
deriving DecidableEq

/-- A Modrinth Version document, reduced to its string id. -/
structure Version where
  id : String
deriving DecidableEq

/-- Outcome of a lookup route: `uncached` is the UncachedResponse
(status 404, Trustable False) branch; `ok content trustable` is the
TrustableResponse carrying the found documents and the Trustable flag. -/
inductive BatchResult (α : Type) where
  | uncached
  | ok (content : List α) (trustable : Bool)
deriving DecidableEq

/-- Outcome of a single-key detail route. -/
inductive DetailResult (α : Type) where
  | uncached
  | ok (content : α) (trustable : Bool)
deriving DecidableEq

/-- The store query of `modrinth_projects`: every Project whose id or
slug is among the requested keys. -/
def foundProjects (db : List Project) (ids_list : List String) : List Project :=
  db.filter (fun p => ids_list.contains p.id || ids_list.contains p.slug)

/-- The store query of `modrinth_versions`: every Version whose id is
among the requested keys. -/
def foundVersions (db : List Version) (ids_list : List String) : List Version :=
  db.filter (fun v => ids_list.contains v.id)

/-- The missing-key computation of `modrinth_projects`:
`list(set(ids_list) - set(model.id for model in models))` -- requested
keys that are not the id of any found document (deduplicated; Python
set order is not observable through the queue, which is itself a set). -/
def notMatchProjectIds (db : List Project) (ids_list : List String) : List String :=
  (ids_list.filter
    (fun i => !((foundProjects db ids_list).map Project.id).contains i)).dedup

/-- Embedding of `modrinth_projects` (GET /modrinth/v2/projects): batch lookup by id
or slug.  Returns the route outcome and the modrinth_project_ids queue
state after the call. -/
def modrinth_projects (db : List Project) (queue : List String)
    (ids_list : List String) : BatchResult Project × List String :=
  let models := foundProjects db ids_list
  if models.isEmpty then
    (.uncached, add_modrinth_project_ids_to_queue queue ids_list)
  else if models.length ≠ ids_list.length then
    (.ok models false,
      add_modrinth_project_ids_to_queue queue (notMatchProjectIds db ids_list))
  else
    (.ok models true, queue)

/-- Embedding of `modrinth_versions` (GET /modrinth/v2/versions): batch lookup by
version id.  In the partial branch the source enqueues the whole
requested list `ids_list`, not the unmatched subset. -/
def modrinth_versions (db : List Version) (queue : List String)
    (ids_list : List String) : BatchResult Version × List String :=
  let models := foundVersions db ids_list
  if models.isEmpty then
    (.uncached, add_modrinth_version_ids_to_queue queue ids_list)
  else if models.length ≠ ids_list.length then
    (.ok models false, add_modrinth_version_ids_to_queue queue ids_list)
  else
    (.ok models true, queue)

/-- Embedding of `modrinth_project` (GET /modrinth/v2/project/(idslug)): single-key
detail lookup by id or slug.  The handler performs no freshness check:
any found document is returned with trustable = True and nothing is
enqueued. -/
def modrinth_project (db : List Project) (queue : List String)
    (idslug : String) : DetailResult Project × List String :=
  match db.find? (fun p => p.id == idslug || p.slug == idslug) with
  | none => (.uncached, add_modrinth_project_ids_to_queue queue [idslug])
  | some model => (.ok model true, queue)

/-! ## CurseForge route handlers (app/routes/curseforge/v1/__init__.py) -/

/-- A CurseForge Mod document, reduced to the fields relevant here: the
numeric id and the sync_at timestamp (seconds).  The sync_at field is
present on the stored document (the sync worker reads it) but the route
handler never reads it. -/
structure CFMod where
  id : Nat
  sync_at : Nat
deriving DecidableEq

/-- Embedding of `curseforge_mod` (GET /curseforge/v1/mods/(modId)): single-key
detail lookup.  The handler performs no freshness check: any found
document is returned with trustable = True and nothing is enqueued,
whatever its sync_at value. -/
def curseforge_mod (db : List CFMod) (queue : List Nat)
    (modId : Nat) : DetailResult CFMod × List Nat :=
  match db.find? (fun m => m.id == modId) with
  | none => (.uncached, add_curseforge_modIds_to_queue queue [modId])
  | some mod_model => (.ok mod_model true, queue)

/-- The freshness predicate as the spec words it (section 4.1, for
comparison with the source): a record is stale when now minus sync_at
exceeds the TTL configured for its entity kind. -/
def specIsStale (sync_at ttl now : Nat) : Bool :=
  decide (sync_at + ttl < now)

/-- Default TTL for the CurseForge mod kind
(app/config/mcim.py, ExpireSecond.curseforge.mod). -/
def curseforgeModTTL : Nat := 86400

/-! ## CDN redirect decision engine (app/controller/file_cdn/__init__.py)

The configuration fields read at decision time (config.mcim_config)
and the redirect mode enum (app/config/mcim.py, FileCDNRedirectMode). -/

/-- FileCDNRedirectMode: origin, open93home (the alternate mirror keyed
by content hash) or pysio (the unconditional partner redirect). -/
inductive FileCDNRedirectMode where
  | origin
  | open93home
  | pysio
deriving DecidableEq

/-- The slice of MCIMConfig the CDN engine reads per request. -/
structure CdnConfig where
  file_cdn : Bool
  file_cdn_redirect_mode : FileCDNRedirectMode
  max_file_size : Nat
  open93home_endpoint : String
  pysio_endpoint : String
deriving DecidableEq

/-- A Modrinth File document, reduced to the fields the CDN engine
reads: the three path-identity fields, the size, the cdn-eligibility
flag computed at ingestion, and the sha1 member of the hashes field. -/
structure MRFileDoc where
  project_id : String
  version_id : String
  filename : String
  size : Nat
  file_cdn_cached : Bool
  sha1 : String
deriving DecidableEq

/-- A CurseForge File document, reduced to the fields the CDN engine
reads: numeric id, fileName, fileLength, the cdn-eligibility flag and
the sha1 entry of the hashes list. -/
structure CFFileDoc where
  id : Nat
  fileName : String
  fileLength : Nat
  file_cdn_cached : Bool
  sha1 : String
deriving DecidableEq

/-- An HTTP redirect response: target URL, Cache-Control header value
and status code. -/
structure RedirectResp where
  url : String
  cache_control : String
  status_code : Nat
deriving DecidableEq

/-- Outcome of a CDN route call: a redirect, or a server error.  The
error constructor models the TypeError raised in the source when
`get_open93home_response` is called with two arguments although it is
defined with one (curseforge open93home branch). -/
inductive CdnResult where
  | redirect (r : RedirectResp)
  | error
deriving DecidableEq

/-- Embedding of `get_origin_response` inside `get_modrinth_file`: 302 to the upstream
cdn.modrinth.com URL. -/
def mr_origin_response (project_id version_id file_name : String) : RedirectResp :=
  { url := "https://cdn.modrinth.com/data/" ++ project_id ++ "/versions/"
        ++ version_id ++ "/" ++ file_name
    cache_control := "public, age=86400"
    status_code := 302 }

/-- Embedding of `get_open93home_response` inside `get_modrinth_file`: 301 to the
alternate-mirror host, path keyed by the sha1 content hash. -/
def mr_open93home_response (endpoint sha1 : String) : RedirectResp :=
  { url := endpoint ++ "/" ++ sha1
    cache_control := "public, age=604800"
    status_code := 301 }

/-- Embedding of `get_pysio_response` inside `get_modrinth_file`: 302 to the partner host. -/
def mr_pysio_response (endpoint project_id version_id file_name : String) :
    RedirectResp :=
  { url := "https://" ++ endpoint ++ "/data/" ++ project_id ++ "/versions/"
        ++ version_id ++ "/" ++ file_name
    cache_control := "public, age=86400"
    status_code := 302 }

/-- The store query of `get_modrinth_file`: first File document with
the requested project_id, version_id and filename. -/
def findMRFile (db : List MRFileDoc)
    (project_id version_id file_name : String) : Option MRFileDoc :=
  db.find? (fun f =>
    f.project_id == project_id && f.version_id == version_id
      && f.filename == file_name)

/-- Embedding of `get_modrinth_file` (GET /data/(project_id)/versions/(version_id)/(file_name)):
the CDN redirect decision for a Modrinth file, returning the outcome and
the modrinth_project_ids queue state after the call. -/
def get_modrinth_file (cfg : CdnConfig) (db : List MRFileDoc)
    (queue : List String) (project_id version_id file_name : String) :
    CdnResult × List String :=
  if !cfg.file_cdn then
    (.redirect (mr_origin_response project_id version_id file_name), queue)
  else if cfg.file_cdn_redirect_mode = .pysio then
    (.redirect (mr_pysio_response cfg.pysio_endpoint project_id version_id
      file_name), queue)
  else
    match findMRFile db project_id version_id file_name with
    | some file =>
      if file.size ≤ cfg.max_file_size && file.file_cdn_cached then
        if cfg.file_cdn_redirect_mode = .open93home then
          (.redirect (mr_open93home_response cfg.open93home_endpoint file.sha1),
            queue)
        else
          (.redirect (mr_origin_response project_id version_id file_name), queue)
      else
        (.redirect (mr_origin_response project_id version_id file_name), queue)
    | none =>
      (.redirect (mr_origin_response project_id version_id file_name),
        add_modrinth_project_ids_to_queue queue [project_id])

/-- Embedding of `get_origin_response` inside `get_curseforge_file`: 302 to the upstream
edge.forgecdn.net URL. -/
def cf_origin_response (fileid1 fileid2 : Nat) (file_name : String) :
    RedirectResp :=
  { url := "https://edge.forgecdn.net/files/" ++ toString fileid1 ++ "/"
        ++ toString fileid2 ++ "/" ++ file_name
    cache_control := "public, age=604800"
    status_code := 302 }

/-- Embedding of `get_pysio_response` inside `get_curseforge_file`: 301 to the partner host. -/
def cf_pysio_response (endpoint : String) (fileid1 fileid2 : Nat)
    (file_name : String) : RedirectResp :=
  { url := endpoint ++ "/files/" ++ toString fileid1 ++ "/"
        ++ toString fileid2 ++ "/" ++ file_name
    cache_control := "public, age=604800"
    status_code := 301 }

/-- Embedding of `int(f"{fileid1}{fileid2}")`: the numeric id obtained by
concatenating the decimal digit strings of the two path segments and
reading the result back as a number (the argument of int() here is
always a string of decimal digits, on which int() is this left fold). -/
def concatFileId (fileid1 fileid2 : Nat) : Nat :=
  (Nat.repr fileid1 ++ Nat.repr fileid2).toList.foldl
    (fun acc c => acc * 10 + (c.toNat - 48)) 0

/-- The store query of `get_curseforge_file`: first File document with
the concatenated id and the requested fileName. -/
def findCFFile (db : List CFFileDoc) (fileid : Nat) (file_name : String) :
    Option CFFileDoc :=
  db.find? (fun f => f.id == fileid && f.fileName == file_name)

/-- Embedding of `get_curseforge_file` (GET /files/(fileid1)/(fileid2)/(file_name)):
the CDN redirect decision for a CurseForge file, returning the outcome
and the curseforge file-ids queue state after the call.  In the
found-eligible-open93home branch the source calls
`get_open93home_response(sha1, request)` although the local function is
defined with a single parameter, which raises TypeError: that branch is
an error outcome.  In the not-found branch the source enqueues the file
id only when it is at least 530000. -/
def get_curseforge_file (cfg : CdnConfig) (db : List CFFileDoc)
    (queue : List Nat) (fileid1 fileid2 : Nat) (file_name : String) :
    CdnResult × List Nat :=
  if !cfg.file_cdn then
    (.redirect (cf_origin_response fileid1 fileid2 file_name), queue)
  else if cfg.file_cdn_redirect_mode = .pysio then
    (.redirect (cf_pysio_response cfg.pysio_endpoint fileid1 fileid2 file_name),
      queue)
  else
    let fileid := concatFileId fileid1 fileid2
    match findCFFile db fileid file_name with
    | some file =>
      if file.fileLength ≤ cfg.max_file_size && file.file_cdn_cached then
        if cfg.file_cdn_redirect_mode = .open93home then
          (.error, queue)
        else
          (.redirect (cf_origin_response fileid1 fileid2 file_name), queue)
      else
        (.redirect (cf_origin_response fileid1 fileid2 file_name), queue)
    | none =>
      if 530000 ≤ fileid then
        (.redirect (cf_origin_response fileid1 fileid2 file_name),
          add_curseforge_fileIds_to_queue queue [fileid])
      else
        (.redirect (cf_origin_response fileid1 fileid2 file_name), queue)

/-! ## Response cache (app/utils/response_cache/__init__.py)

The wrapped handler result is either a structured Response (status,
headers, body) or something else (the isinstance(result, Response)
check in the source).  The Redis string backend is a key-value map with
per-entry expiry; GET at time now sees an entry until its expiry. -/

/-- A rendered HTTP response: status code, header list and body bytes
(kept as a string, all payloads here being ASCII JSON). -/
structure Resp where
  status_code : Nat
  headers : List (String × String)
  body : String
deriving DecidableEq

/-- Result of the wrapped handler: a structured Response or another
value, which the wrapper passes through without caching. -/
inductive HandlerResult where
  | resp (r : Resp)
  | other
deriving DecidableEq

/-- Modelled from the spec: the serialized form a response takes in the
cache backend.  The file app/utils/response_cache/resp_builder.py is not
in the source tree; per section 3 of the spec a CacheEntry holds the
encoded status code, headers and body. -/
structure StoredResponse where
  status_code : Nat
  headers : List (String × String)
  body : String
deriving DecidableEq

/-- Modelled from the spec: ResponseBuilder.encode (resp_builder.py is
not in the source tree) serializes status, headers and body. -/
def ResponseBuilder.encode (r : Resp) : StoredResponse :=
  { status_code := r.status_code, headers := r.headers, body := r.body }

/-- Modelled from the spec: ResponseBuilder.decode (resp_builder.py is
not in the source tree) rebuilds the response verbatim, same status,
headers and body. -/
def ResponseBuilder.decode (v : StoredResponse) : Resp :=
  { status_code := v.status_code, headers := v.headers, body := v.body }

/-- One entry of the Redis cache backend: key, stored value, and the
absolute expiry instant (`none` for the SET-without-EX, never-expire
case). -/
structure BackendEntry where
  key : String
  value : StoredResponse
  expireAt : Option Nat
deriving DecidableEq

/-- Redis GET at time `now`: the entry for the key when present and not
yet expired. -/
def backendGet (backend : List BackendEntry) (now : Nat) (k : String) :
    Option StoredResponse :=
  match backend.find? (fun e => e.key == k) with
  | some e =>
    match e.expireAt with
    | none => some e.value
    | some t => if now < t then some e.value else none
  | none => none

/-- Redis SET (overwrite-by-key) with an optional expiry instant. -/
def backendSet (backend : List BackendEntry) (k : String)
    (v : StoredResponse) (expireAt : Option Nat) : List BackendEntry :=
  { key := k, value := v, expireAt := expireAt }
    :: backend.filter (fun e => !(e.key == k))

/-- The Cache-Control test of the wrapper:
`"Cache-Control" in result.headers` and then
`"no-cache" in result.headers["Cache-Control"]` (substring test). -/
def headerForbidsCaching (headers : List (String × String)) : Bool :=
  match headers.find? (fun kv => kv.1 == "Cache-Control") with
  | some kv => decide (List.IsInfix ("no-cache".toList) kv.2.toList)
  | none => false

/-- What one invocation of the cache-wrapped handler produced: the
value returned to the caller, the backend state afterwards, whether the
underlying handler was invoked, and whether a backend read happened. -/
structure CacheCall where
  result : HandlerResult
  backend : List BackendEntry
  invokedHandler : Bool
  didRead : Bool
deriving DecidableEq

/-- The wrapper produced by the `cache(expire, never_expire)` decorator,
as a function of one invocation.  `enabled` is the `_cache_instance.enabled`
bit as read inside the wrapper at call time (the source reads the live
instance attribute on every call, it is not captured when the decorator
runs); `force` is the explicit caller bypass (`kwargs.get("force") is
True`); `key` is the fingerprint computed by the key builder from the
route identity and arguments, so two identical requests share it;
`handler` is the value `await func(...)` would produce. -/
def cacheWrapper (expire : Nat) (never_expire : Bool) (enabled : Bool)
    (force : Bool) (key : String) (now : Nat) (handler : HandlerResult)
    (backend : List BackendEntry) : CacheCall :=
  if force || !enabled then
    { result := handler, backend := backend
      invokedHandler := true, didRead := false }
  else
    match backendGet backend now key with
    | some value =>
      { result := .resp (ResponseBuilder.decode value), backend := backend
        invokedHandler := false, didRead := true }
    | none =>
      match handler with
      | .resp r =>
        if 400 ≤ r.status_code then
          { result := .resp r, backend := backend
            invokedHandler := true, didRead := true }
        else if headerForbidsCaching r.headers then
          { result := .resp r, backend := backend
            invokedHandler := true, didRead := true }
        else
          { result := .resp r
            backend := backendSet backend key (ResponseBuilder.encode r)
              (if never_expire then none else some (now + expire))
            invokedHandler := true, didRead := true }
      | .other =>
        { result := .other, backend := backend
          invokedHandler := true, didRead := true }

/-! ## Structured responses and ETag (app/utils/response/__init__.py)

A JSON value type stands for the jsonable-encoded content; orjsonDumps
is the compact orjson.dumps encoding (no spaces between items).  String
payloads are restricted to the ASCII, no-escape subset, which covers
every payload this service emits. -/

/-- A JSON value (the jsonable-encoded response content). -/
inductive Json where
  | null
  | bool (b : Bool)
  | num (n : Int)
  | str (s : String)
  | arr (xs : List Json)
  | obj (fields : List (String × Json))

mutual

/-- orjson.dumps on a JSON value, as a string of ASCII bytes: compact
encoding, no whitespace, object fields in insertion order. -/
def orjsonDumps : Json → String
  | .null => "null"
  | .bool true => "true"
  | .bool false => "false"
  | .num n => toString n
  | .str s => "\"" ++ s ++ "\""
  | .arr xs => "[" ++ orjsonDumpsItems xs ++ "]"
  | .obj fields => "\x7b" ++ orjsonDumpsFields fields ++ "\x7d"

/-- Comma-separated encoding of the items of a JSON array. -/
def orjsonDumpsItems : List Json → String
  | [] => ""
  | [x] => orjsonDumps x
  | x :: y :: rest => orjsonDumps x ++ "," ++ orjsonDumpsItems (y :: rest)

/-- Comma-separated encoding of the fields of a JSON object. -/
def orjsonDumpsFields : List (String × Json) → String
  | [] => ""
  | [kv] => "\"" ++ kv.1 ++ "\":" ++ orjsonDumps kv.2
  | kv :: y :: rest =>
    "\"" ++ kv.1 ++ "\":" ++ orjsonDumps kv.2 ++ "," ++ orjsonDumpsFields (y :: rest)

end

/-! SHA-1 (hashlib.sha1), over byte lists, words as Nat mod 2^32. -/

/-- Left rotation of a 32-bit word. -/
def rotl32 (n x : Nat) : Nat :=
  ((x <<< n) ||| (x >>> (32 - n))) % 4294967296

/-- The SHA-1 round constant for round `t`. -/
def sha1K (t : Nat) : Nat :=
  if t < 20 then 0x5A827999
  else if t < 40 then 0x6ED9EBA1
  else if t < 60 then 0x8F1BBCDC
  else 0xCA62C1D6

/-- The SHA-1 round function for round `t`. -/
def sha1F (t b c d : Nat) : Nat :=
  if t < 20 then (b &&& c) ||| ((b ^^^ 4294967295) &&& d)
  else if t < 40 then b ^^^ c ^^^ d
  else if t < 60 then (b &&& c) ||| (b &&& d) ||| (c &&& d)
  else b ^^^ c ^^^ d

/-- Big-endian 32-bit word from four bytes. -/
def beWord (a b c d : Nat) : Nat :=
  ((a * 256 + b) * 256 + c) * 256 + d

/-- The 80-word message schedule of one SHA-1 chunk, from its 16 input
words. -/
def sha1Schedule (ws : List Nat) : List Nat :=
  (List.range 80).foldl
    (fun acc t =>
      if t < 16 then acc ++ [ws.getD t 0]
      else acc ++ [rotl32 1 (acc.getD (t - 3) 0 ^^^ acc.getD (t - 8) 0
        ^^^ acc.getD (t - 14) 0 ^^^ acc.getD (t - 16) 0)]) []

/-- The SHA-1 compression function on one 64-byte chunk. -/
def sha1Compress (h : Nat × Nat × Nat × Nat × Nat) (chunk : List Nat) :
    Nat × Nat × Nat × Nat × Nat :=
  let ws := (List.range 16).map (fun i =>
    beWord (chunk.getD (4 * i) 0) (chunk.getD (4 * i + 1) 0)
      (chunk.getD (4 * i + 2) 0) (chunk.getD (4 * i + 3) 0))
  let w := sha1Schedule ws
  let (h0, h1, h2, h3, h4) := h
  let (a, b, c, d, e) :=
    (List.range 80).foldl
      (fun st t =>
        let (a, b, c, d, e) := st
        let temp := (rotl32 5 a + sha1F t b c d + e + sha1K t + w.getD t 0)
          % 4294967296
        (temp, a, rotl32 30 b, c, d))
      (h0, h1, h2, h3, h4)
  ((h0 + a) % 4294967296, (h1 + b) % 4294967296, (h2 + c) % 4294967296,
    (h3 + d) % 4294967296, (h4 + e) % 4294967296)

/-- SHA-1 message padding: append 0x80, zero bytes up to 56 mod 64,
then the bit length as 8 big-endian bytes. -/
def sha1Pad (msg : List Nat) : List Nat :=
  let ml := msg.length * 8
  let zeros := (120 - (msg.length + 1) % 64) % 64
  msg ++ [128] ++ List.replicate zeros 0
    ++ (List.range 8).map (fun i => ml / 2 ^ (8 * (7 - i)) % 256)

/-- SHA-1 digest of a byte list, as a 160-bit natural number. -/
def sha1Bytes (msg : List Nat) : Nat :=
  let padded := sha1Pad msg
  let chunks := (List.range (padded.length / 64)).map
    (fun i => (padded.drop (64 * i)).take 64)
  let (h0, h1, h2, h3, h4) := chunks.foldl sha1Compress
    (0x67452301, 0xEFCDAB89, 0x98BADCFE, 0x10325476, 0xC3D2E1F0)
  (((h0 * 4294967296 + h1) * 4294967296 + h2) * 4294967296 + h3)
    * 4294967296 + h4

/-- Lowercase hex digit for a value below 16. -/
def hexDigitChar (n : Nat) : Char :=
  if n < 10 then Char.ofNat (48 + n) else Char.ofNat (87 + n)

/-- Fixed-width lowercase hex encoding of a natural number. -/
def natToHex (width n : Nat) : String :=
  ((List.range width).map
    (fun i => hexDigitChar (n / 16 ^ (width - 1 - i) % 16))).asString

/-- hexdigest of SHA-1: 40 lowercase hex characters. -/
def sha1Hex (msg : List Nat) : String :=
  natToHex 40 (sha1Bytes msg)

/-- Bytes of an ASCII string (every payload hashed here is ASCII, where
UTF-8 bytes and code points agree). -/
def strBytes (s : String) : List Nat :=
  s.toList.map Char.toNat

/-- Embedding of `generate_etag`: the SHA-1 hexdigest of the orjson-encoded content
followed by the decimal string of the status code (hashlib update with
the body bytes, then with str(status_code).encode()). -/
def generate_etag (content : Json) (status_code : Nat) : String :=
  sha1Hex (strBytes (orjsonDumps content) ++ strBytes (toString status_code))

/-- Python dict read `headers.get(k)` on the header list. -/
def getHeader (headers : List (String × String)) (k : String) :
    Option String :=
  (headers.find? (fun kv => kv.1 == k)).map (fun kv => kv.2)

/-- Python dict write `headers[k] = v` on the header list: overwrite in
place when present, append otherwise. -/
def setHeader (headers : List (String × String)) (k v : String) :
    List (String × String) :=
  if headers.any (fun kv => kv.1 == k) then
    headers.map (fun kv => if kv.1 == k then (k, v) else kv)
  else
    headers ++ [(k, v)]

/-- Embedding of `BaseResponse.__init__`: jsonable-encoded content (`none` is Python
None), status code and caller headers.  A 200 response without a
Cache-Control header gets the default public, max-age=86400; a 200
response with non-null content gets the Etag header, computed at
construction time; the body is the orjson rendering of the content. -/
def mkBaseResponse (content : Option Json) (status_code : Nat)
    (headers : List (String × String)) : Resp :=
  let headers :=
    if status_code = 200 ∧ getHeader headers "Cache-Control" = none then
      setHeader headers "Cache-Control" "public, max-age=86400"
    else headers
  let headers :=
    match content with
    | some c =>
      if status_code = 200 then
        setHeader headers "Etag" (generate_etag c status_code)
      else headers
    | none => headers
  { status_code := status_code
    headers := headers
    body :=
      match content with
      | some c => orjsonDumps c
      | none => "null" }

/-! ## Helper lemmas: the Redis set model -/

theorem mem_saddOne {α : Type} [DecidableEq α] (s : List α) (x y : α) :
    y ∈ saddOne s x ↔ y ∈ s ∨ y = x := by
  unfold saddOne
  by_cases h : x ∈ s
  · simp only [if_pos h]
    constructor
    · exact fun hy => Or.inl hy
    · rintro (hy | rfl)
      · exact hy
      · exact h
  · simp [if_neg h]

theorem mem_sadd {α : Type} [DecidableEq α] (s : List α) (xs : List α) (y : α) :
    y ∈ sadd s xs ↔ y ∈ s ∨ y ∈ xs := by
  induction xs generalizing s with
  | nil => simp [sadd]
  | cons x xs ih =>
    show y ∈ sadd (saddOne s x) xs ↔ _
    rw [ih, mem_saddOne]
    simp only [List.mem_cons]
    tauto

theorem saddOne_mem {α : Type} [DecidableEq α] (s : List α) (x : α) (h : x ∈ s) :
    saddOne s x = s := by
  unfold saddOne
  simp [h]

theorem sadd_subset_noop {α : Type} [DecidableEq α] (s : List α) (xs : List α)
    (h : ∀ x ∈ xs, x ∈ s) : sadd s xs = s := by
  induction xs generalizing s with
  | nil => rfl
  | cons x xs ih =>
    show sadd (saddOne s x) xs = s
    rw [saddOne_mem s x (h x (List.mem_cons_self x xs))]
    exact ih s (fun y hy => h y (List.mem_cons_of_mem x hy))

theorem sadd_idem {α : Type} [DecidableEq α] (s : List α) (xs : List α) :
    sadd (sadd s xs) xs = sadd s xs := by
  apply sadd_subset_noop
  intro x hx
  rw [mem_sadd]
  exact Or.inr hx

theorem nodup_saddOne {α : Type} [DecidableEq α] (s : List α) (x : α)
    (h : s.Nodup) : (saddOne s x).Nodup := by
  unfold saddOne
  by_cases hx : x ∈ s
  · simpa [hx]
  · simp only [if_neg hx]
    simpa [List.nodup_append] using And.intro h hx

theorem nodup_sadd {α : Type} [DecidableEq α] (s : List α) (xs : List α)
    (h : s.Nodup) : (sadd s xs).Nodup := by
  induction xs generalizing s with
  | nil => exact h
  | cons x xs ih => exact ih (saddOne s x) (nodup_saddOne s x h)

/-! ## Helper lemmas about the queue operations -/

theorem mem_add_project_ids (queue xs : List String) (k : String) :
    k ∈ add_modrinth_project_ids_to_queue queue xs ↔ k ∈ queue ∨ k ∈ xs := by
  unfold add_modrinth_project_ids_to_queue
  by_cases h : xs.length ≠ 0
  · rw [if_pos h, mem_sadd]
  · have hx : xs = [] := by
      rcases xs with _ | ⟨a, t⟩
      · rfl
      · exact absurd (by simp) h
    subst hx
    simp

theorem mem_add_version_ids (queue xs : List String) (k : String) :
    k ∈ add_modrinth_version_ids_to_queue queue xs
      ↔ k ∈ queue ∨ (k ∈ xs ∧ reMatchAlnum 8 k = true) := by
  unfold add_modrinth_version_ids_to_queue
  simp only []
  by_cases h : (xs.filter (reMatchAlnum 8)).length > 0
  · rw [if_pos h, mem_sadd, List.mem_filter]
  · rw [if_neg h]
    have hx : xs.filter (reMatchAlnum 8) = [] := by
      rcases hf : xs.filter (reMatchAlnum 8) with _ | ⟨a, t⟩
      · rfl
      · rw [hf] at h
        exact absurd (by simp) h
    constructor
    · exact fun hk => Or.inl hk
    · rintro (hk | ⟨hk1, hk2⟩)
      · exact hk
      · have : k ∈ xs.filter (reMatchAlnum 8) := List.mem_filter.mpr ⟨hk1, hk2⟩
        rw [hx] at this
        exact absurd this (List.not_mem_nil k)

theorem mem_add_hashes (queue hashes : List String) (algorithm : Algorithm)
    (k : String) :
    k ∈ add_modrinth_hashes_to_queue queue hashes algorithm
      ↔ k ∈ queue
        ∨ (k ∈ hashes ∧ reMatchAlnum algorithm.patternLength k = true) := by
  unfold add_modrinth_hashes_to_queue
  simp only []
  by_cases h : (hashes.filter (reMatchAlnum algorithm.patternLength)).length > 0
  · rw [if_pos h, mem_sadd, List.mem_filter]
  · rw [if_neg h]
    have hx : hashes.filter (reMatchAlnum algorithm.patternLength) = [] := by
      rcases hf : hashes.filter (reMatchAlnum algorithm.patternLength)
        with _ | ⟨a, t⟩
      · rfl
      · rw [hf] at h
        exact absurd (by simp) h
    constructor
    · exact fun hk => Or.inl hk
    · rintro (hk | ⟨hk1, hk2⟩)
      · exact hk
      · have : k ∈ hashes.filter (reMatchAlnum algorithm.patternLength) :=
          List.mem_filter.mpr ⟨hk1, hk2⟩
        rw [hx] at this
        exact absurd this (List.not_mem_nil k)

theorem mem_notMatchProjectIds (db : List Project) (ids : List String)
    (k : String) :
    k ∈ notMatchProjectIds db ids
      ↔ k ∈ ids ∧ k ∉ (foundProjects db ids).map Project.id := by
  unfold notMatchProjectIds
  rw [List.mem_dedup, List.mem_filter]
  simp


/-- Helper: the header written by setHeader is the one getHeader reads
back. -/
theorem getHeader_setHeader (h : List (String × String)) (k v : String) :
    getHeader (setHeader h k v) k = some v := by
  unfold setHeader getHeader
  by_cases hany : h.any (fun kv => kv.1 == k)
  · rw [if_pos hany]
    induction h with
    | nil => simp at hany
    | cons a t ih =>
      by_cases ha : (a.1 == k) = true
      · rw [List.map_cons, if_pos ha, List.find?_cons_of_pos _ (by simp)]
        rfl
      · simp only [List.any_cons, Bool.or_eq_true] at hany
        rw [List.map_cons, if_neg ha, List.find?_cons_of_neg _ (by simpa using ha)]
        exact ih (hany.resolve_left ha)
  · rw [if_neg hany]
    induction h with
    | nil =>
      rw [List.nil_append, List.find?_cons_of_pos _ (by simp)]
      rfl
    | cons a t ih =>
      simp only [List.any_cons, Bool.or_eq_true, not_or] at hany
      rw [List.cons_append,
        show List.find? (fun kv => kv.1 == k) (a :: (t ++ [(k, v)]))
            = List.find? (fun kv => kv.1 == k) (t ++ [(k, v)]) from
          List.find?_cons_of_neg _ hany.1]
      exact ih (by simpa using hany.2)

/-! ## Claim theorems -/

/-- Claim C1, counterexample: on the Modrinth versions batch endpoint
with requested keys [aaaaaaaa, bbbbbbbb] (N = 2) and a store holding
only version aaaaaaaa (M = 1), the partial result is returned with
trustable = false, but the queue afterwards contains BOTH requested
keys, including the found key aaaaaaaa -- not exactly the N - M = 1
missing keys the claim requires. -/
theorem modrinth_versions_enqueues_found_key_cex :
    (modrinth_versions [{ id := "aaaaaaaa" }] [] ["aaaaaaaa", "bbbbbbbb"]).1
      = .ok [{ id := "aaaaaaaa" }] false
  ∧ (modrinth_versions [{ id := "aaaaaaaa" }] [] ["aaaaaaaa", "bbbbbbbb"]).2
      = ["aaaaaaaa", "bbbbbbbb"] := by
  decide

/-- Claim C1, amended: in a batch lookup with 0 < M found documents,
the found subset is returned with trustable = false when M differs from
N and trustable = true (with no enqueue) when M = N; on partial miss
the Modrinth projects endpoint enqueues exactly the requested keys that
are not ids of found documents, while the Modrinth versions endpoint
enqueues every requested key that passes the id shape filter, found or
not. -/
theorem batch_trust_law_amended
    (dbP : List Project) (dbV : List Version) (qP qV : List String)
    (idsP idsV : List String)
    (hP0 : foundProjects dbP idsP ≠ [])
    (hV0 : foundVersions dbV idsV ≠ []) :
    ((foundProjects dbP idsP).length ≠ idsP.length →
      (modrinth_projects dbP qP idsP).1 = .ok (foundProjects dbP idsP) false ∧
      ∀ k, k ∈ (modrinth_projects dbP qP idsP).2 ↔
        k ∈ qP ∨ (k ∈ idsP ∧ k ∉ (foundProjects dbP idsP).map Project.id))
  ∧ ((foundProjects dbP idsP).length = idsP.length →
      modrinth_projects dbP qP idsP = (.ok (foundProjects dbP idsP) true, qP))
  ∧ ((foundVersions dbV idsV).length ≠ idsV.length →
      (modrinth_versions dbV qV idsV).1 = .ok (foundVersions dbV idsV) false ∧
      ∀ k, k ∈ (modrinth_versions dbV qV idsV).2 ↔
        k ∈ qV ∨ (k ∈ idsV ∧ reMatchAlnum 8 k = true))
  ∧ ((foundVersions dbV idsV).length = idsV.length →
      modrinth_versions dbV qV idsV = (.ok (foundVersions dbV idsV) true, qV)) := by
  have hPe : (foundProjects dbP idsP).isEmpty = false := by
    rcases h : foundProjects dbP idsP with _ | ⟨a, t⟩
    · exact absurd h hP0
    · rfl
  have hVe : (foundVersions dbV idsV).isEmpty = false := by
    rcases h : foundVersions dbV idsV with _ | ⟨a, t⟩
    · exact absurd h hV0
    · rfl
  refine ⟨?_, ?_, ?_, ?_⟩
  · intro hne
    simp only [modrinth_projects, hPe, Bool.false_eq_true, if_false, if_pos hne]
    refine ⟨trivial, fun k => ?_⟩
    rw [mem_add_project_ids, mem_notMatchProjectIds]
  · intro heq
    simp only [modrinth_projects, hPe, Bool.false_eq_true, if_false]
    rw [if_neg (fun hc => hc heq)]
  · intro hne
    simp only [modrinth_versions, hVe, Bool.false_eq_true, if_false, if_pos hne]
    exact ⟨trivial, fun k => mem_add_version_ids qV idsV k⟩
  · intro heq
    simp only [modrinth_versions, hVe, Bool.false_eq_true, if_false]
    rw [if_neg (fun hc => hc heq)]

/-- Claim C1 witness: the amended theorem applied at a concrete store
and key lists. -/
theorem batch_trust_law_amended_witness :
    foundProjects [{ id := "p1", slug := "s1" }] ["p1", "p2"] ≠ ([] : List Project)
  ∧ foundVersions [{ id := "aaaaaaaa" }] ["aaaaaaaa", "bbbbbbbb"] ≠ ([] : List Version)
  ∧ ((foundProjects [{ id := "p1", slug := "s1" }] ["p1", "p2"]).length
        ≠ ["p1", "p2"].length →
      (modrinth_projects [{ id := "p1", slug := "s1" }] [] ["p1", "p2"]).1
        = .ok (foundProjects [{ id := "p1", slug := "s1" }] ["p1", "p2"]) false ∧
      ∀ k, k ∈ (modrinth_projects [{ id := "p1", slug := "s1" }] [] ["p1", "p2"]).2 ↔
        k ∈ ([] : List String) ∨ (k ∈ ["p1", "p2"] ∧
          k ∉ (foundProjects [{ id := "p1", slug := "s1" }] ["p1", "p2"]).map
            Project.id)) :=
  ⟨by decide, by decide,
    (batch_trust_law_amended [{ id := "p1", slug := "s1" }]
      [{ id := "aaaaaaaa" }] [] [] ["p1", "p2"] ["aaaaaaaa", "bbbbbbbb"]
      (by decide) (by decide)).1⟩

/-- Claim C2, counterexample: a CurseForge mod whose sync_at = 0 is
stale at now = 1700000000 under the configured mod TTL of 86400
seconds, yet the detail endpoint returns it with trustable = true and
enqueues nothing (the queue stays empty), not the exactly-one backfill
enqueue the claim requires. -/
theorem stale_detail_no_enqueue_cex :
    specIsStale 0 curseforgeModTTL 1700000000 = true
  ∧ curseforge_mod [{ id := 30000, sync_at := 0 }] [] 30000
      = (.ok { id := 30000, sync_at := 0 } true, []) := by
  decide

/-- Claim C2, amended: a single-key detail lookup that finds a record
returns it unconditionally (trustable = true) and triggers no backfill
enqueue at all, whatever the age of its syncedAt timestamp: the
handlers perform no freshness check. -/
theorem detail_found_no_freshness_enqueue
    (dbM : List CFMod) (qM : List Nat) (modId : Nat) (m : CFMod)
    (dbP : List Project) (qP : List String) (idslug : String) (p : Project)
    (hm : dbM.find? (fun x => x.id == modId) = some m)
    (hp : dbP.find? (fun x => x.id == idslug || x.slug == idslug) = some p) :
    curseforge_mod dbM qM modId = (.ok m true, qM)
  ∧ modrinth_project dbP qP idslug = (.ok p true, qP) := by
  constructor
  · unfold curseforge_mod
    rw [hm]
  · unfold modrinth_project
    rw [hp]

/-- Claim C2 witness: the amended theorem applied at concrete stores. -/
theorem detail_found_no_freshness_enqueue_witness :
    curseforge_mod [{ id := 30000, sync_at := 0 }] [] 30000
      = (.ok { id := 30000, sync_at := 0 } true, [])
  ∧ modrinth_project [{ id := "p1", slug := "s1" }] [] "s1"
      = (.ok { id := "p1", slug := "s1" } true, []) :=
  detail_found_no_freshness_enqueue
    [{ id := 30000, sync_at := 0 }] [] 30000 { id := 30000, sync_at := 0 }
    [{ id := "p1", slug := "s1" }] [] "s1" { id := "p1", slug := "s1" }
    (by decide) (by decide)

/-- Claim C3, counterexample: with file mirroring enabled and redirect
mode open93home, a request for the missing CurseForge file 1/2 (id 12)
redirects to the origin URL but enqueues nothing, because 12 is below
the 530000 threshold -- the claim says the owning key is enqueued for
every such miss. -/
theorem cdn_miss_small_fileid_no_enqueue_cex :
    concatFileId 1 2 = 12
  ∧ get_curseforge_file
      { file_cdn := true, file_cdn_redirect_mode := .open93home,
        max_file_size := 20971520, open93home_endpoint := "http://open93home",
        pysio_endpoint := "https://pysio.online" }
      [] [] 1 2 "a.jar"
      = (.redirect (cf_origin_response 1 2 "a.jar"), []) := by
  decide

/-- Claim C3, amended: with file mirroring enabled, redirect mode
open93home and the requested file absent from the store, the response
is a redirect to the origin URL (never the alternate host); the owning
Modrinth project id is always enqueued, while the CurseForge file id is
enqueued only when it is at least 530000. -/
theorem cdn_fallback_origin_amended
    (cfg : CdnConfig) (dbM : List MRFileDoc) (qM : List String)
    (p v n : String) (dbC : List CFFileDoc) (qC : List Nat)
    (f1 f2 : Nat) (nameC : String)
    (hcdn : cfg.file_cdn = true)
    (hmode : cfg.file_cdn_redirect_mode = .open93home)
    (hmM : findMRFile dbM p v n = none)
    (hmC : findCFFile dbC (concatFileId f1 f2) nameC = none) :
    get_modrinth_file cfg dbM qM p v n
      = (.redirect (mr_origin_response p v n), sadd qM [p])
  ∧ get_curseforge_file cfg dbC qC f1 f2 nameC
      = (.redirect (cf_origin_response f1 f2 nameC),
         if 530000 ≤ concatFileId f1 f2
         then sadd qC [concatFileId f1 f2] else qC) := by
  constructor
  · unfold get_modrinth_file
    rw [hcdn, hmode]
    simp only [Bool.not_true, Bool.false_eq_true, if_false]
    rw [if_neg (by decide), hmM]
    rfl
  · unfold get_curseforge_file
    rw [hcdn, hmode]
    simp only [Bool.not_true, Bool.false_eq_true, if_false]
    rw [if_neg (by decide), hmC]
    by_cases h : 530000 ≤ concatFileId f1 f2
    · rw [if_pos h, if_pos h]
      rfl
    · rw [if_neg h, if_neg h]

/-- Claim C3 witness: the amended theorem applied at concrete requests
(the CurseForge id 3040523 is above the threshold and is enqueued). -/
theorem cdn_fallback_origin_amended_witness :
    get_modrinth_file
      { file_cdn := true, file_cdn_redirect_mode := .open93home,
        max_file_size := 20971520, open93home_endpoint := "http://open93home",
        pysio_endpoint := "https://pysio.online" }
      [] [] "AANobbMI" "IZskON6d" "sodium.jar"
      = (.redirect (mr_origin_response "AANobbMI" "IZskON6d" "sodium.jar"),
         sadd [] ["AANobbMI"])
  ∧ get_curseforge_file
      { file_cdn := true, file_cdn_redirect_mode := .open93home,
        max_file_size := 20971520, open93home_endpoint := "http://open93home",
        pysio_endpoint := "https://pysio.online" }
      [] [] 3040 523 "jei.jar"
      = (.redirect (cf_origin_response 3040 523 "jei.jar"),
         if 530000 ≤ concatFileId 3040 523
         then sadd [] [concatFileId 3040 523] else []) :=
  cdn_fallback_origin_amended
    { file_cdn := true, file_cdn_redirect_mode := .open93home,
      max_file_size := 20971520, open93home_endpoint := "http://open93home",
      pysio_endpoint := "https://pysio.online" }
    [] [] "AANobbMI" "IZskON6d" "sodium.jar" [] [] 3040 523 "jei.jar"
    rfl rfl rfl rfl

/-- Claim C4, counterexample: the 40-character string gggg...g is not a
fixed-length-40 hex string (g is not a hex digit), and the 41-character
string aaa...a is not of length 40, yet both are added to the sha1 hash
queue: the source check is re.match with an alphanumeric class and no
end anchor, not a fixed-length hex match. -/
theorem hash_queue_nonhex_cex :
    specFixedHex 40 (String.mk (List.replicate 40 (Char.ofNat 103))) = false
  ∧ (String.mk (List.replicate 40 (Char.ofNat 103)))
      ∈ add_modrinth_hashes_to_queue []
          [String.mk (List.replicate 40 (Char.ofNat 103))] .sha1
  ∧ specFixedHex 40 (String.mk (List.replicate 41 (Char.ofNat 97))) = false
  ∧ (String.mk (List.replicate 41 (Char.ofNat 97)))
      ∈ add_modrinth_hashes_to_queue []
          [String.mk (List.replicate 41 (Char.ofNat 97))] .sha1 := by
  decide

/-- Claim C4, amended: a key is added to the hash queue if and only if
it was already pending or it occurs in the batch and its first 40 (for
sha1) or 128 (for sha512) characters exist and are ASCII alphanumeric
(the anchored-at-start re.match of the source); keys failing that check
are silently dropped without failing the rest of the batch. -/
theorem hash_queue_membership (queue hashes : List String)
    (algorithm : Algorithm) (x : String) :
    x ∈ add_modrinth_hashes_to_queue queue hashes algorithm
      ↔ x ∈ queue
        ∨ (x ∈ hashes ∧ reMatchAlnum algorithm.patternLength x = true) :=
  mem_add_hashes queue hashes algorithm x

/-- Claim C5: with the cache enabled, writing a cacheable status-200
response on a miss and reading the same fingerprint back before expiry
returns the identical response record (same status code, same body
bytes, same headers including the Etag header) without invoking the
underlying handler again. -/
theorem cache_replay_exact
    (expire : Nat) (never_expire : Bool) (key : String)
    (now0 now1 : Nat) (r : Resp) (h2 : HandlerResult)
    (backend : List BackendEntry)
    (hmiss : backendGet backend now0 key = none)
    (hstatus : r.status_code = 200)
    (hcc : headerForbidsCaching r.headers = false)
    (hfresh : never_expire = true ∨ now1 < now0 + expire) :
    (cacheWrapper expire never_expire true false key now1 h2
        (cacheWrapper expire never_expire true false key now0 (.resp r)
          backend).backend).result
      = .resp r
  ∧ (cacheWrapper expire never_expire true false key now1 h2
        (cacheWrapper expire never_expire true false key now0 (.resp r)
          backend).backend).invokedHandler
      = false := by
  have hb1 : (cacheWrapper expire never_expire true false key now0 (.resp r)
      backend).backend
      = backendSet backend key (ResponseBuilder.encode r)
          (if never_expire then none else some (now0 + expire)) := by
    unfold cacheWrapper
    rw [if_neg (by simp), hmiss]
    simp only [if_neg (show ¬ 400 ≤ r.status_code by rw [hstatus]; decide),
      if_neg (show ¬ headerForbidsCaching r.headers = true by rw [hcc]; decide)]
  have hget : backendGet
      (backendSet backend key (ResponseBuilder.encode r)
        (if never_expire then none else some (now0 + expire))) now1 key
      = some (ResponseBuilder.encode r) := by
    unfold backendGet backendSet
    rw [List.find?_cons_of_pos _ (by simp)]
    rcases hfresh with hf | hf
    · rw [hf]
      rfl
    · by_cases hne : never_expire
      · rw [hne]
        rfl
      · simp only [Bool.not_eq_true] at hne
        rw [hne]
        simp only [Bool.false_eq_true, if_false]
        rw [if_pos hf]
  have hw2 : cacheWrapper expire never_expire true false key now1 h2
      (backendSet backend key (ResponseBuilder.encode r)
        (if never_expire then none else some (now0 + expire)))
      = { result := .resp (ResponseBuilder.decode (ResponseBuilder.encode r))
          backend := backendSet backend key (ResponseBuilder.encode r)
            (if never_expire then none else some (now0 + expire))
          invokedHandler := false, didRead := true } := by
    unfold cacheWrapper
    rw [if_neg (by simp), hget]
  rw [hb1, hw2]
  exact ⟨rfl, rfl⟩

/-- Claim C5 witness: the theorem applied to the response built from
the object with field a = 1 at times 0 and 30 with a 60 second expiry. -/
theorem cache_replay_exact_witness :
    backendGet [] 0 "fp" = none
  ∧ (mkBaseResponse (some (Json.obj [("a", Json.num 1)])) 200 []).status_code
      = 200
  ∧ headerForbidsCaching
      (mkBaseResponse (some (Json.obj [("a", Json.num 1)])) 200 []).headers
      = false
  ∧ ((cacheWrapper 60 false true false "fp" 30 .other
      (cacheWrapper 60 false true false "fp" 0
        (.resp (mkBaseResponse (some (Json.obj [("a", Json.num 1)])) 200 []))
        []).backend).result
      = .resp (mkBaseResponse (some (Json.obj [("a", Json.num 1)])) 200 [])
    ∧ (cacheWrapper 60 false true false "fp" 30 .other
      (cacheWrapper 60 false true false "fp" 0
        (.resp (mkBaseResponse (some (Json.obj [("a", Json.num 1)])) 200 []))
        []).backend).invokedHandler
      = false) :=
  ⟨rfl, rfl, rfl,
    cache_replay_exact 60 false "fp" 0 30
      (mkBaseResponse (some (Json.obj [("a", Json.num 1)])) 200 []) .other []
      rfl rfl rfl (Or.inr (by decide))⟩

/-- Claim C6: with the cache enabled and a miss, a handler response
with status at least 400 or with no-cache in its Cache-Control header
is returned to the caller but the cache backend state is unchanged, so
the response is not found in the cache afterwards. -/
theorem no_error_cache_write
    (expire : Nat) (never_expire : Bool) (key : String) (now : Nat)
    (r : Resp) (backend : List BackendEntry)
    (hmiss : backendGet backend now key = none)
    (h : 400 ≤ r.status_code ∨ headerForbidsCaching r.headers = true) :
    (cacheWrapper expire never_expire true false key now (.resp r) backend).backend
      = backend
  ∧ (cacheWrapper expire never_expire true false key now (.resp r) backend).result
      = .resp r
  ∧ backendGet
      (cacheWrapper expire never_expire true false key now (.resp r) backend).backend
      now key = none := by
  have hw : cacheWrapper expire never_expire true false key now (.resp r) backend
      = { result := .resp r, backend := backend
          invokedHandler := true, didRead := true } := by
    unfold cacheWrapper
    rw [if_neg (by simp)]
    rw [hmiss]
    rcases h with h | h
    · simp only [if_pos h]
    · by_cases h4 : 400 ≤ r.status_code
      · simp only [if_pos h4]
      · simp only [if_neg h4, if_pos h]
  rw [hw]
  exact ⟨rfl, rfl, hmiss⟩

/-- Claim C6 witness: the theorem applied to a 404 UncachedResponse. -/
theorem no_error_cache_write_witness :
    backendGet [] 0 "fp" = none
  ∧ ((cacheWrapper 60 false true false "fp" 0
        (.resp { status_code := 404, headers := [("Trustable", "False")],
                 body := "" }) []).backend = []
    ∧ (cacheWrapper 60 false true false "fp" 0
        (.resp { status_code := 404, headers := [("Trustable", "False")],
                 body := "" }) []).result
      = .resp { status_code := 404, headers := [("Trustable", "False")],
                body := "" }
    ∧ backendGet (cacheWrapper 60 false true false "fp" 0
        (.resp { status_code := 404, headers := [("Trustable", "False")],
                 body := "" }) []).backend 0 "fp" = none) :=
  ⟨rfl, no_error_cache_write 60 false "fp" 0
    { status_code := 404, headers := [("Trustable", "False")], body := "" }
    [] rfl (Or.inl (by decide))⟩

/-- Claim C7: whenever the enabled bit read at invocation time is false
or the caller passes force, the wrapper returns the handler result
directly with no cache read and no write, and a second identical
request in the same state invokes the handler again. -/
theorem cache_disabled_bypass
    (expire : Nat) (never_expire : Bool) (enabled force : Bool)
    (key : String) (now1 now2 : Nat) (handler : HandlerResult)
    (backend : List BackendEntry)
    (h : force = true ∨ enabled = false) :
    (cacheWrapper expire never_expire enabled force key now1 handler backend).result
      = handler
  ∧ (cacheWrapper expire never_expire enabled force key now1 handler backend).backend
      = backend
  ∧ (cacheWrapper expire never_expire enabled force key now1 handler backend).invokedHandler
      = true
  ∧ (cacheWrapper expire never_expire enabled force key now1 handler backend).didRead
      = false
  ∧ (cacheWrapper expire never_expire enabled force key now2 handler
      (cacheWrapper expire never_expire enabled force key now1 handler backend).backend).invokedHandler
      = true
  ∧ (cacheWrapper expire never_expire enabled force key now2 handler
      (cacheWrapper expire never_expire enabled force key now1 handler backend).backend).didRead
      = false := by
  have hcond : (force || !enabled) = true := by
    rcases h with h | h
    · rw [h]
      rfl
    · rw [h]
      simp
  have hw : ∀ now b, cacheWrapper expire never_expire enabled force key now handler b
      = { result := handler, backend := b
          invokedHandler := true, didRead := false } := by
    intro now b
    unfold cacheWrapper
    rw [if_pos hcond]
  rw [hw, hw]
  exact ⟨rfl, rfl, rfl, rfl, rfl, rfl⟩

/-- Claim C7 witness: the theorem applied with the cache disabled at a
concrete request, twice. -/
theorem cache_disabled_bypass_witness :
    (cacheWrapper 60 false false false "fp" 0 (.resp
        { status_code := 200, headers := [], body := "x" }) []).result
      = .resp { status_code := 200, headers := [], body := "x" }
  ∧ (cacheWrapper 60 false false false "fp" 0 (.resp
        { status_code := 200, headers := [], body := "x" }) []).backend = []
  ∧ (cacheWrapper 60 false false false "fp" 0 (.resp
        { status_code := 200, headers := [], body := "x" }) []).invokedHandler = true
  ∧ (cacheWrapper 60 false false false "fp" 0 (.resp
        { status_code := 200, headers := [], body := "x" }) []).didRead = false
  ∧ (cacheWrapper 60 false false false "fp" 1 (.resp
        { status_code := 200, headers := [], body := "x" })
      (cacheWrapper 60 false false false "fp" 0 (.resp
        { status_code := 200, headers := [], body := "x" }) []).backend).invokedHandler
      = true
  ∧ (cacheWrapper 60 false false false "fp" 1 (.resp
        { status_code := 200, headers := [], body := "x" })
      (cacheWrapper 60 false false false "fp" 0 (.resp
        { status_code := 200, headers := [], body := "x" }) []).backend).didRead
      = false :=
  cache_disabled_bypass 60 false false false "fp" 0 1
    (.resp { status_code := 200, headers := [], body := "x" }) []
    (Or.inr rfl)

/-- Claim C8: enqueuing a batch twice leaves the queue exactly as
enqueuing it once; a duplicate-free queue stays duplicate-free; and
enqueuing a single already-pending key is a no-op. -/
theorem enqueue_idempotent (queue : List String) (ids : List String) :
    add_modrinth_project_ids_to_queue
        (add_modrinth_project_ids_to_queue queue ids) ids
      = add_modrinth_project_ids_to_queue queue ids
  ∧ (queue.Nodup → (add_modrinth_project_ids_to_queue queue ids).Nodup)
  ∧ (∀ k, k ∈ queue → add_modrinth_project_ids_to_queue queue [k] = queue) := by
  refine ⟨?_, ?_, ?_⟩
  · unfold add_modrinth_project_ids_to_queue
    by_cases h : ids.length ≠ 0
    · rw [if_pos h, if_pos h, sadd_idem]
    · rw [if_neg h, if_neg h]
  · intro hq
    unfold add_modrinth_project_ids_to_queue
    by_cases h : ids.length ≠ 0
    · rw [if_pos h]
      exact nodup_sadd queue ids hq
    · rw [if_neg h]
      exact hq
  · intro k hk
    unfold add_modrinth_project_ids_to_queue
    rw [if_pos (by simp)]
    show saddOne queue k = queue
    exact saddOne_mem queue k hk

/-- Claim C8 witness: enqueue of [A] twice equals enqueue of [A] once. -/
theorem enqueue_idempotent_witness :
    add_modrinth_project_ids_to_queue
        (add_modrinth_project_ids_to_queue [] ["A"]) ["A"]
      = add_modrinth_project_ids_to_queue [] ["A"] :=
  (enqueue_idempotent [] ["A"]).1

/-- Claim C9: a 200 response built from non-null content carries an
Etag header equal to the SHA-1 content address of the encoded body and
status code; two responses built from equal content and status carry
equal Etag values whatever other headers differ; and the cache
encode/decode round trip preserves the response, headers included, so
replays carry the identical Etag. -/
theorem etag_deterministic
    (c : Json) (s : Nat) (h1 h2 : List (String × String))
    (hs : s = 200) :
    getHeader (mkBaseResponse (some c) s h1).headers "Etag"
      = some (generate_etag c s)
  ∧ getHeader (mkBaseResponse (some c) s h2).headers "Etag"
      = getHeader (mkBaseResponse (some c) s h1).headers "Etag"
  ∧ ResponseBuilder.decode
      (ResponseBuilder.encode (mkBaseResponse (some c) s h1))
      = mkBaseResponse (some c) s h1 := by
  subst hs
  have key : ∀ h : List (String × String),
      getHeader (mkBaseResponse (some c) 200 h).headers "Etag"
        = some (generate_etag c 200) := by
    intro h
    simp only [mkBaseResponse]
    rw [if_pos trivial]
    exact getHeader_setHeader _ _ _
  exact ⟨key h1, (key h2).trans (key h1).symm, rfl⟩

/-- Claim C9 witness: the theorem applied to the content object with
field a = 1 at status 200 under two different initial header lists. -/
theorem etag_deterministic_witness :
    getHeader
      (mkBaseResponse (some (Json.obj [("a", Json.num 1)])) 200 []).headers
      "Etag"
      = some (generate_etag (Json.obj [("a", Json.num 1)]) 200)
  ∧ getHeader
      (mkBaseResponse (some (Json.obj [("a", Json.num 1)])) 200
        [("X-Extra", "y")]).headers "Etag"
      = getHeader
        (mkBaseResponse (some (Json.obj [("a", Json.num 1)])) 200 []).headers
        "Etag"
  ∧ ResponseBuilder.decode
      (ResponseBuilder.encode
        (mkBaseResponse (some (Json.obj [("a", Json.num 1)])) 200 []))
      = mkBaseResponse (some (Json.obj [("a", Json.num 1)])) 200 [] :=
  etag_deterministic (Json.obj [("a", Json.num 1)]) 200 [] [("X-Extra", "y")] rfl

/-- Claim C10: when file mirroring is enabled, the mode is not the
unconditional partner redirect, and the store lookup finds no file
record, the CurseForge CDN endpoint enqueues the concatenated file id
if and only if it is at least 530000; below the threshold the queue is
unchanged. -/
theorem curseforge_cdn_enqueue_threshold
    (cfg : CdnConfig) (db : List CFFileDoc) (queue : List Nat)
    (f1 f2 : Nat) (name : String)
    (hcdn : cfg.file_cdn = true)
    (hmode : cfg.file_cdn_redirect_mode ≠ .pysio)
    (hmiss : findCFFile db (concatFileId f1 f2) name = none) :
    (get_curseforge_file cfg db queue f1 f2 name).2
      = (if 530000 ≤ concatFileId f1 f2
         then sadd queue [concatFileId f1 f2] else queue)
  ∧ (concatFileId f1 f2 < 530000 →
      (get_curseforge_file cfg db queue f1 f2 name).2 = queue) := by
  have hmain : (get_curseforge_file cfg db queue f1 f2 name).2
      = (if 530000 ≤ concatFileId f1 f2
         then sadd queue [concatFileId f1 f2] else queue) := by
    unfold get_curseforge_file
    rw [hcdn]
    simp only [Bool.not_true, Bool.false_eq_true, if_false]
    rw [if_neg hmode, hmiss]
    by_cases h : 530000 ≤ concatFileId f1 f2
    · rw [if_pos h, if_pos h]
      rfl
    · rw [if_neg h, if_neg h]
  refine ⟨hmain, fun hlt => ?_⟩
  rw [hmain, if_neg (Nat.not_le_of_lt hlt)]

/-- Claim C10 witness: the theorem applied to the missing file 1/2,
whose id 12 is below the threshold, leaving the queue empty. -/
theorem curseforge_cdn_enqueue_threshold_witness :
    (get_curseforge_file
      { file_cdn := true, file_cdn_redirect_mode := .origin,
        max_file_size := 20971520, open93home_endpoint := "http://open93home",
        pysio_endpoint := "https://pysio.online" }
      [] [] 1 2 "a.jar").2
      = (if 530000 ≤ concatFileId 1 2 then sadd [] [concatFileId 1 2] else [])
  ∧ (concatFileId 1 2 < 530000 →
      (get_curseforge_file
        { file_cdn := true, file_cdn_redirect_mode := .origin,
          max_file_size := 20971520, open93home_endpoint := "http://open93home",
          pysio_endpoint := "https://pysio.online" }
        [] [] 1 2 "a.jar").2 = []) :=
  curseforge_cdn_enqueue_threshold
    { file_cdn := true, file_cdn_redirect_mode := .origin,
      max_file_size := 20971520, open93home_endpoint := "http://open93home",
      pysio_endpoint := "https://pysio.online" }
    [] [] 1 2 "a.jar" rfl (by decide) rfl

end MCIM
